import Mathlib

/-!
Shallow embedding of `src/etl.py`, the extraction logic of a two-pipeline
star-schema ETL job (song pipeline: songs/artists; log pipeline: users/time/
songplays).  DataFrames are embedded as Lean lists of rows; the Spark
operations used by the source (`filter`, `selectExpr`, `orderBy`,
`drop_duplicates`, `dropDuplicates([k])`, `withColumn`,
`monotonically_increasing_id`) are embedded as list functions under the
sequential (single-partition) semantics.  Python-level failures that the
source exhibits (attribute lookup on a dataframe, local-name lookup, Spark
column resolution at analysis time) are embedded with `Except`.

Timestamps: `datetime.fromtimestamp(ts / 1000.0)` is embedded as a pure
Gregorian calendar computation under the UTC convention (the spec's design
note recommends fixing UTC, since the source's local-timezone behaviour is
machine-dependent).  `ts` is embedded as `Nat` (epoch milliseconds).
Fractional JSON numbers (duration, latitude, longitude) are embedded as
scaled integers; none of the verified properties depends on their
arithmetic, only on equality.
-/

namespace ETL

/-- Failures surfaced while running the ETL functions: Python
`AttributeError` / `NameError`, and Spark `AnalysisException` raised when a
referenced column cannot be resolved against a dataframe schema. -/
inductive PyError where
  | attributeError (name : String)
  | nameError (name : String)
  | analysisException (column : String)
deriving DecidableEq

/-- A Gregorian calendar point in time, the embedding of the Python
`datetime` value produced by `datetime.fromtimestamp(ts / 1000.0)` under the
UTC convention.  `millis` embeds the microsecond component (the source keeps
the fractional part of `ts / 1000.0`, i.e. the millisecond remainder of a
millisecond epoch stamp).  The source stores `str(datetime)` in the
`datetime` column; `str` is injective on these values, so equality of the
stored strings coincides with equality of `PyDatetime` values, and Spark's
`hour`/`dayofmonth`/`month`/`year` on the string recover the fields. -/
structure PyDatetime where
  year : Nat
  month : Nat
  day : Nat
  hour : Nat
  minute : Nat
  second : Nat
  millis : Nat
deriving DecidableEq

/-- A Spark cell value; `Option Value` is used where a cell may be null. -/
inductive Value where
  | str (s : String)
  | nat (n : Nat)
  | int (i : Int)
  | dt (d : PyDatetime)
deriving DecidableEq

/-- Input song-metadata record (one JSON object per file), fields as in the
dataset / spec data model. -/
structure SongRecord where
  song_id : String
  title : String
  artist_id : String
  artist_name : String
  artist_location : String
  artist_latitude : Int
  artist_longitude : Int
  year : Int
  duration : Int
deriving DecidableEq

/-- Input usage-log record, fields as in the dataset / spec data model.
There is no song_id, artist_id or year column in a log record. -/
structure LogRecord where
  userId : String
  firstName : String
  lastName : String
  gender : String
  level : String
  ts : Nat
  sessionId : Int
  page : String
  location : String
  userAgent : String
  song : String
  artist : String
deriving DecidableEq

/-- Keep-first deduplication by a key, with an accumulator of keys already
seen: the embedding of Spark `dropDuplicates([key])` under sequential
semantics. -/
def dedupeByAux {α β : Type} [DecidableEq β] (key : α → β) (seen : List β) :
    List α → List α
  | [] => []
  | x :: xs =>
    if key x ∈ seen then dedupeByAux key seen xs
    else x :: dedupeByAux key (key x :: seen) xs

/-- Keep-first deduplication by a key. -/
def dedupeBy {α β : Type} [DecidableEq β] (key : α → β) (l : List α) : List α :=
  dedupeByAux key [] l

/-- Gregorian leap-year test. -/
def isLeap (y : Nat) : Bool :=
  (y % 4 == 0 && y % 100 != 0) || y % 400 == 0

/-- Number of days in year `y`. -/
def daysInYear (y : Nat) : Nat :=
  if isLeap y then 366 else 365

/-- Starting from year `y` with `d` days remaining, advance whole years
until fewer than a year of days remains; returns the final year and the
0-based day of that year.  The first argument is fuel, strictly larger than
`d` at the call site, so the fuel-exhaustion branch is unreachable (each
recursive step consumes at least 365 days). -/
def yearAndDoyAux : Nat → Nat → Nat → Nat × Nat
  | 0, y, d => (y, d)
  | fuel + 1, y, d =>
    if d < daysInYear y then (y, d)
    else yearAndDoyAux fuel (y + 1) (d - daysInYear y)

/-- Year and 0-based day-of-year of the day `d` days after 1970-01-01. -/
def yearAndDoy (d : Nat) : Nat × Nat :=
  yearAndDoyAux (d + 1) 1970 d

/-- The lengths of the twelve months of a (leap or common) year. -/
def monthLengths (leap : Bool) : List Nat :=
  [31, if leap then 29 else 28, 31, 30, 31, 30, 31, 31, 30, 31, 30, 31]

/-- Walk the month lengths, consuming `d` days; returns the 1-based month
(counting from `m`) and the 1-based day of month. -/
def monthDayAux : List Nat → Nat → Nat → Nat × Nat
  | [], m, d => (m, d + 1)
  | len :: rest, m, d =>
    if d < len then (m, d + 1)
    else monthDayAux rest (m + 1) (d - len)

/-- Month (1..12) and day of month (1..31) of the 0-based day `doy` of year
`y`. -/
def monthAndDay (y doy : Nat) : Nat × Nat :=
  monthDayAux (monthLengths (isLeap y)) 1 doy

/-- Embedding of `datetime.fromtimestamp(ts / 1000.0)` at line 87 of
`src/etl.py`, under the UTC convention, for `ts` in epoch milliseconds. -/
def fromtimestampUTC (ts : Nat) : PyDatetime :=
  let s := ts / 1000
  let days := s / 86400
  let sod := s % 86400
  let yd := yearAndDoy days
  let md := monthAndDay yd.1 yd.2
  { year := yd.1, month := md.1, day := md.2,
    hour := sod / 3600, minute := sod % 3600 / 60, second := sod % 60,
    millis := ts % 1000 }

/-- ISO weekday (1 = Monday .. 7 = Sunday) of the day `days` days after
1970-01-01 (which was a Thursday). -/
def isoWeekday (days : Nat) : Nat :=
  (days + 3) % 7 + 1

/-- Auxiliary weekday-anchor of a year (the ISO 53-week criterion uses the
weekday of 31 December); `y / 100 ≤ y / 4`, so the truncated subtraction is
exact. -/
def pYear (y : Nat) : Nat :=
  (y + y / 4 - y / 100 + y / 400) % 7

/-- Number of ISO weeks (52 or 53) in year `y`. -/
def weeksInYear (y : Nat) : Nat :=
  if pYear y = 4 ∨ pYear (y - 1) = 3 then 53 else 52

/-- Embedding of Spark `weekofyear` (ISO 8601 week number) applied to the
derived datetime of an epoch-millisecond stamp `ts`. -/
def weekofyear (ts : Nat) : Nat :=
  let days := ts / 1000 / 86400
  let yd := yearAndDoy days
  let w := (10 + (yd.2 + 1) - isoWeekday days) / 7
  if w = 0 then weeksInYear (yd.1 - 1)
  else if weeksInYear yd.1 < w then 1
  else w

/-- Embedding of the udf at line 83 of `src/etl.py`:
`lambda x: str(int(int(x)/1000))`, the epoch-second string. -/
def get_timestamp (ts : Nat) : String :=
  toString (ts / 1000)

/-- A row of the songs table: the `selectExpr` projection at lines 38-42 of
`src/etl.py` (no renames). -/
structure SongRow where
  song_id : String
  title : String
  artist_id : String
  year : Int
  duration : Int
deriving DecidableEq

/-- The songs projection of one song record. -/
def songRowOf (r : SongRecord) : SongRow :=
  ⟨r.song_id, r.title, r.artist_id, r.year, r.duration⟩

/-- Insert a row into a list sorted by `song_id`, after any row whose
`song_id` is not greater (stable insertion). -/
def insertSorted (x : SongRow) : List SongRow → List SongRow
  | [] => [x]
  | y :: ys =>
    match compare y.song_id x.song_id with
    | Ordering.gt => x :: y :: ys
    | _ => y :: insertSorted x ys

/-- Stable sort by `song_id`: the embedding of `.orderBy("song_id")` at
line 42 of `src/etl.py`. -/
def orderBySongId : List SongRow → List SongRow
  | [] => []
  | x :: xs => insertSorted x (orderBySongId xs)

/-- Spark `drop_duplicates()` with no subset argument deduplicates on the
whole row, keeping the first occurrence. -/
def drop_duplicates (l : List SongRow) : List SongRow :=
  dedupeBy (fun t => t) l

/-- The songs table of lines 38-42 of `src/etl.py`: project, order by
song_id, then drop duplicate whole rows. -/
def songs_table (rs : List SongRecord) : List SongRow :=
  drop_duplicates (orderBySongId (rs.map songRowOf))

/-- A row of the artists table: the `selectExpr` projection at lines 48-52
of `src/etl.py` (no renames). -/
structure ArtistRow where
  artist_id : String
  artist_name : String
  artist_location : String
  artist_latitude : Int
  artist_longitude : Int
deriving DecidableEq

/-- The artists projection of one song record. -/
def artistRowOf (r : SongRecord) : ArtistRow :=
  ⟨r.artist_id, r.artist_name, r.artist_location, r.artist_latitude,
   r.artist_longitude⟩

/-- The artists table of lines 48-52 of `src/etl.py`:
`dropDuplicates(["artist_id"])` keeps the first row per artist_id. -/
def artists_table (rs : List SongRecord) : List ArtistRow :=
  dedupeBy ArtistRow.artist_id (rs.map artistRowOf)

/-- The filter at line 73 of `src/etl.py`:
`df.filter(df.page == "NextSong")`. -/
def filterNextSong (logs : List LogRecord) : List LogRecord :=
  logs.filter (fun r => r.page == "NextSong")

/-- A row of the users projection at lines 76-77 of `src/etl.py`
(`df["userId", "firstName", "lastName", "gender", "level"]`, no renames). -/
structure UserRow where
  userId : String
  firstName : String
  lastName : String
  gender : String
  level : String
deriving DecidableEq

/-- The users projection of one log record. -/
def userRowOf (r : LogRecord) : UserRow :=
  ⟨r.userId, r.firstName, r.lastName, r.gender, r.level⟩

/-- The users projection at lines 76-77 of `src/etl.py`: filter to NextSong
(line 73), project, `dropDuplicates(["userId"])`.  In the source this value
is bound to the local name `artists_table`. -/
def users_projection (logs : List LogRecord) : List UserRow :=
  dedupeBy UserRow.userId ((filterNextSong logs).map userRowOf)

/-- A log row after the two `withColumn` calls at lines 84 and 88 of
`src/etl.py`: the original record plus the `timestamp` string column and
the `datetime` column (stored as `str(datetime)` in the source; embedded
structurally, see `PyDatetime`). -/
structure LogRowExt where
  record : LogRecord
  timestamp : String
  datetime : PyDatetime
deriving DecidableEq

/-- The two `withColumn` calls at lines 84 and 88 of `src/etl.py`. -/
def addTimeCols (logs : List LogRecord) : List LogRowExt :=
  logs.map (fun r => ⟨r, get_timestamp r.ts, fromtimestampUTC r.ts⟩)

/-- A row of the time table: the select at lines 91-98 of `src/etl.py`. -/
structure TimeRow where
  start_time : PyDatetime
  hour : Nat
  day : Nat
  week : Nat
  month : Nat
  year : Nat
deriving DecidableEq

/-- The time projection of one extended log row: `hour`, `dayofmonth`,
`weekofyear`, `month`, `year` of the `datetime` column. -/
def timeRowOf (row : LogRowExt) : TimeRow :=
  { start_time := row.datetime, hour := row.datetime.hour,
    day := row.datetime.day, week := weekofyear row.record.ts,
    month := row.datetime.month, year := row.datetime.year }

/-- The time table of lines 91-98 of `src/etl.py`: built from the filtered
log dataframe with the derived datetime column, then
`dropDuplicates(["start_time"])`. -/
def time_table (logs : List LogRecord) : List TimeRow :=
  dedupeBy TimeRow.start_time ((addTimeCols (filterNextSong logs)).map timeRowOf)

/-- The columns of the log dataframe as read (spec data model section 3);
there is no `song_id`, `artist_id` or `year` column. -/
def logColumns : List String :=
  ["userId", "firstName", "lastName", "gender", "level", "ts", "sessionId",
   "page", "location", "userAgent", "song", "artist"]

/-- The columns of the log dataframe after the two `withColumn` calls. -/
def df2Columns : List String :=
  logColumns ++ ["timestamp", "datetime"]

/-- Column lookup on an extended log row; `none` for a name that is not a
column of the dataframe (the names must agree with `df2Columns`). -/
def getCol (row : LogRowExt) (name : String) : Option Value :=
  if name = "userId" then some (Value.str row.record.userId)
  else if name = "firstName" then some (Value.str row.record.firstName)
  else if name = "lastName" then some (Value.str row.record.lastName)
  else if name = "gender" then some (Value.str row.record.gender)
  else if name = "level" then some (Value.str row.record.level)
  else if name = "ts" then some (Value.nat row.record.ts)
  else if name = "sessionId" then some (Value.int row.record.sessionId)
  else if name = "page" then some (Value.str row.record.page)
  else if name = "location" then some (Value.str row.record.location)
  else if name = "userAgent" then some (Value.str row.record.userAgent)
  else if name = "song" then some (Value.str row.record.song)
  else if name = "artist" then some (Value.str row.record.artist)
  else if name = "timestamp" then some (Value.str row.timestamp)
  else if name = "datetime" then some (Value.dt row.datetime)
  else none

/-- A select-list expression of the songplays select at lines 108-118 of
`src/etl.py`: either a plain column reference `col(name)` or
`month(name)` applied to a column. -/
inductive SparkExpr where
  | col (name : String)
  | monthOf (name : String)
deriving DecidableEq

/-- The column name an expression references. -/
def exprColumn : SparkExpr → String
  | SparkExpr.col n => n
  | SparkExpr.monthOf n => n

/-- Evaluate a select expression on an extended log row. -/
def evalExpr (row : LogRowExt) : SparkExpr → Option Value
  | SparkExpr.col n => getCol row n
  | SparkExpr.monthOf n =>
    match getCol row n with
    | some (Value.dt d) => some (Value.nat d.month)
    | _ => none

/-- The songplays select list of lines 108-118 of `src/etl.py`, in source
order: output column name and expression.  `month` is computed from the
derived `datetime` column; `year` (like `artist_id` and `song_id`) is a
plain reference to a raw column of the log dataframe. -/
def songplaysSelect : List (String × SparkExpr) :=
  [("ts", SparkExpr.col "ts"),
   ("session_id", SparkExpr.col "sessionId"),
   ("user_id", SparkExpr.col "userId"),
   ("artist_id", SparkExpr.col "artist_id"),
   ("song_id", SparkExpr.col "song_id"),
   ("level", SparkExpr.col "level"),
   ("location", SparkExpr.col "location"),
   ("user_agent", SparkExpr.col "userAgent"),
   ("month", SparkExpr.monthOf "datetime"),
   ("year", SparkExpr.col "year")]

/-- Spark analysis of a select list against a schema: the first referenced
column that cannot be resolved, if any. -/
def analyzeSelect (sel : List (String × SparkExpr)) (cols : List String) :
    Option String :=
  (sel.map (fun p => exprColumn p.2)).find? (fun c => !(cols.contains c))

/-- A songplays row: named cells (nullable, as in Spark). -/
def SPRow : Type := List (String × Option Value)

instance : DecidableEq SPRow := by
  unfold SPRow
  infer_instance

/-- Pair each row with its index: the sequential (single-partition)
semantics of `monotonically_increasing_id()` at line 119 of `src/etl.py`. -/
def assignIds {α : Type} (start : Nat) : List α → List (α × Nat)
  | [] => []
  | x :: xs => (x, start) :: assignIds (start + 1) xs

/-- The `withColumn("songplay_id", monotonically_increasing_id())` stage at
line 119 of `src/etl.py`. -/
def withSongplayId {α : Type} (rows : List α) : List (α × Nat) :=
  assignIds 0 rows

/-- The path-pattern string assigned to `song_df` at line 105 of
`src/etl.py` (a string, not a dataframe: the song data is never read
here). -/
def songDataPath : String :=
  "song_data/*/*/*/*.json"

/-- Lines 104-119 of `src/etl.py`: the songplays derivation.  `song_df` is
assigned a path string and never used; the select at lines 108-118 is
analyzed against the log dataframe schema and fails on the first
unresolvable column; had it resolved, each row would be the evaluated
select list with the appended `songplay_id` column. -/
def songplays_stage (logs : List LogRecord) (songData : List SongRecord) :
    Except PyError (List SPRow) :=
  let song_df := songDataPath
  match analyzeSelect songplaysSelect df2Columns with
  | some c => Except.error (PyError.analysisException c)
  | none =>
    let base := (addTimeCols (filterNextSong logs)).map
      (fun row => songplaysSelect.map (fun p => (p.1, evalExpr row p.2)))
    Except.ok ((withSongplayId base).map
      (fun p => p.1 ++ [("songplay_id", some (Value.nat p.2))]))

/-- A derived table (payload of a write). -/
inductive Table where
  | songs (rows : List SongRow)
  | artists (rows : List ArtistRow)
  | users (rows : List UserRow)
  | time (rows : List TimeRow)
  | songplays (rows : List SPRow)

/-- A performed parquet write: destination, partition columns, payload. -/
structure TableWrite where
  path : String
  partitionColumns : List String
  table : Table

/-- The attributes reachable on a dataframe: its column names (PySpark
resolves unknown attributes to columns) plus the dataframe methods the
source uses. -/
def dataFrameAttrs (cols : List String) : List String :=
  cols ++ ["write", "select", "selectExpr", "filter", "orderBy",
           "drop_duplicates", "dropDuplicates", "withColumn"]

/-- Python attribute lookup: `AttributeError` when the name is not an
attribute. -/
def pyGetAttr (attrs : List String) (name : String) : Except PyError Unit :=
  if name ∈ attrs then Except.ok () else Except.error (PyError.attributeError name)

/-- The columns of the songs dataframe built at lines 38-42. -/
def songsColumns : List String :=
  ["song_id", "title", "artist_id", "year", "duration"]

/-- `process_song_data` of `src/etl.py` (lines 23-55), with the read of the
song files abstracted into the `songs` argument.  Line 45 writes via
`songs_table.songs_table.write`: the attribute `songs_table` is neither a
column nor a method of the songs dataframe, so the lookup fails and no
write is performed. -/
def process_song_data (songs : List SongRecord) :
    Except PyError (List TableWrite) := do
  let songsTab := songs_table songs
  let _ ← pyGetAttr (dataFrameAttrs songsColumns) "songs_table"
  let w1 : TableWrite := ⟨"songs.parquet", ["year", "artist_id"], Table.songs songsTab⟩
  let artistsTab := artists_table songs
  let w2 : TableWrite := ⟨"artists.parquet", [], Table.artists artistsTab⟩
  pure [w1, w2]

/-- Python local-name lookup in an environment of user-table-typed locals:
`NameError` when the name is unbound. -/
def lookupUsersLocal (env : List (String × List UserRow)) (name : String) :
    Except PyError (List UserRow) :=
  match env.find? (fun p => p.1 == name) with
  | some p => Except.ok p.2
  | none => Except.error (PyError.nameError name)

/-- `process_log_data` of `src/etl.py` (lines 58-124), with the read of the
log files abstracted into the `logs` argument and the song data under
`input_data` abstracted into `songData`.  Line 76 binds the users
projection to the local name `artists_table`; line 80 then writes
`users_table`, a name never bound, so the lookup fails with `NameError`
before any table is written.  The remainder (time table, songplays) is the
faithful continuation that the failure makes unreachable. -/
def process_log_data (logs : List LogRecord) (songData : List SongRecord) :
    Except PyError (List TableWrite) := do
  let df := filterNextSong logs
  let artistsTab := users_projection logs
  let usersTab ← lookupUsersLocal [("artists_table", artistsTab)] "users_table"
  let wUsers : TableWrite := ⟨"users.parquet", [], Table.users usersTab⟩
  let timeTab := time_table logs
  let wTime : TableWrite := ⟨"time.parquet", ["year", "month"], Table.time timeTab⟩
  let spTab ← songplays_stage logs songData
  let wSp : TableWrite := ⟨"songplays.parquet", ["year", "month"], Table.songplays spTab⟩
  let _ := df
  pure [wUsers, wTime, wSp]

/-- A concrete NextSong log record, used in witnesses. -/
def exNextSong : LogRecord :=
  { userId := "26", firstName := "Ryan", lastName := "Smith", gender := "M",
    level := "free", ts := 1541990258796, sessionId := 169,
    page := "NextSong", location := "San Jose", userAgent := "Mozilla",
    song := "You Gotta Be", artist := "Desree" }

/-- A concrete non-NextSong log record (`page = "Home"`), used in
witnesses. -/
def exHome : LogRecord :=
  { userId := "26", firstName := "Ryan", lastName := "Smith", gender := "M",
    level := "free", ts := 1541990300000, sessionId := 169,
    page := "Home", location := "San Jose", userAgent := "Mozilla",
    song := "", artist := "" }

/-- A concrete song record with song_id "SOXXXX" and year 2000. -/
def exSongA : SongRecord :=
  { song_id := "SOXXXX", title := "TitleX", artist_id := "ARXXXX",
    artist_name := "ArtistX", artist_location := "LocX",
    artist_latitude := 0, artist_longitude := 0, year := 2000,
    duration := 200000 }

/-- A concrete song record sharing song_id "SOXXXX" but with year 2001. -/
def exSongB : SongRecord :=
  { song_id := "SOXXXX", title := "TitleX", artist_id := "ARXXXX",
    artist_name := "ArtistX", artist_location := "LocX",
    artist_latitude := 0, artist_longitude := 0, year := 2001,
    duration := 200000 }

theorem mem_of_mem_dedupeByAux {α β : Type} [DecidableEq β] (key : α → β) :
    ∀ (l : List α) (seen : List β) (a : α),
      a ∈ dedupeByAux key seen l → a ∈ l := by
  intro l
  induction l with
  | nil => intro seen a h; simp [dedupeByAux] at h
  | cons x xs ih =>
    intro seen a h
    by_cases hx : key x ∈ seen
    · simp only [dedupeByAux, if_pos hx] at h
      exact List.mem_cons_of_mem _ (ih _ _ h)
    · simp only [dedupeByAux, if_neg hx, List.mem_cons] at h
      rcases h with rfl | h
      · exact List.mem_cons_self _ _
      · exact List.mem_cons_of_mem _ (ih _ _ h)

theorem mem_dedupeByAux_id {α : Type} [DecidableEq α] :
    ∀ (l : List α) (seen : List α) (a : α),
      a ∈ dedupeByAux (fun x => x) seen l ↔ a ∈ l ∧ a ∉ seen := by
  intro l
  induction l with
  | nil => intro seen a; simp [dedupeByAux]
  | cons x xs ih =>
    intro seen a
    by_cases hx : x ∈ seen
    · rw [show dedupeByAux (fun x => x) seen (x :: xs) =
          dedupeByAux (fun x => x) seen xs from if_pos hx, ih]
      constructor
      · rintro ⟨h1, h2⟩; exact ⟨List.mem_cons_of_mem _ h1, h2⟩
      · rintro ⟨h1, h2⟩
        rcases List.mem_cons.1 h1 with rfl | h1
        · exact absurd hx h2
        · exact ⟨h1, h2⟩
    · rw [show dedupeByAux (fun x => x) seen (x :: xs) =
          x :: dedupeByAux (fun x => x) (x :: seen) xs from if_neg hx]
      simp only [List.mem_cons, ih]
      constructor
      · rintro (rfl | ⟨h1, h2⟩)
        · exact ⟨Or.inl rfl, hx⟩
        · exact ⟨Or.inr h1, fun hs => h2 (Or.inr hs)⟩
      · rintro ⟨rfl | h1, h2⟩
        · exact Or.inl rfl
        · by_cases hax : a = x
          · exact Or.inl hax
          · exact Or.inr ⟨h1, by simp [List.mem_cons, hax, h2]⟩

theorem nodup_dedupeByAux {α β : Type} [DecidableEq β] (key : α → β) :
    ∀ (l : List α) (seen : List β),
      ((dedupeByAux key seen l).map key).Nodup ∧
      ∀ b ∈ (dedupeByAux key seen l).map key, b ∉ seen := by
  intro l
  induction l with
  | nil => intro seen; simp [dedupeByAux]
  | cons x xs ih =>
    intro seen
    by_cases hx : key x ∈ seen
    · simpa only [dedupeByAux, if_pos hx] using ih seen
    · rw [show dedupeByAux key seen (x :: xs) =
          x :: dedupeByAux key (key x :: seen) xs from if_neg hx]
      obtain ⟨hnd, hmem⟩ := ih (key x :: seen)
      refine ⟨List.nodup_cons.2 ⟨fun hk => ?_, hnd⟩, ?_⟩
      · exact hmem _ hk (List.mem_cons_self _ _)
      · intro b hb
        rcases List.mem_cons.1 hb with rfl | hb
        · exact hx
        · intro hs; exact hmem _ hb (List.mem_cons_of_mem _ hs)

theorem mem_insertSorted (x : SongRow) :
    ∀ (l : List SongRow) (a : SongRow),
      a ∈ insertSorted x l ↔ a = x ∨ a ∈ l := by
  intro l
  induction l with
  | nil => intro a; simp [insertSorted]
  | cons y ys ih =>
    intro a
    unfold insertSorted
    cases compare y.song_id x.song_id <;>
      simp only [List.mem_cons, ih] <;> tauto

theorem mem_orderBySongId :
    ∀ (l : List SongRow) (a : SongRow), a ∈ orderBySongId l ↔ a ∈ l := by
  intro l
  induction l with
  | nil => intro a; simp [orderBySongId]
  | cons x xs ih =>
    intro a
    simp only [orderBySongId, mem_insertSorted, List.mem_cons, ih]

/-- Claim C2 counterexample: two song records sharing song_id "SOXXXX" but
with different `year` values yield two songs-table rows for "SOXXXX", not
the single row the claim states (`drop_duplicates()` with no subset
deduplicates on the whole row, not on song_id). -/
theorem songs_table_two_rows_for_shared_song_id :
    ¬ ((songs_table [exSongA, exSongB]).countP
        (fun t => t.song_id == "SOXXXX") = 1) := by
  decide

/-- Claim C2 (amended): for every input sequence of song records, the songs
table contains exactly one row per distinct projected tuple
(song_id, title, artist_id, year, duration) present in the input — the
output has no duplicate rows and its rows are exactly the projected input
records — so records sharing a song_id but differing in any projected
field each contribute their own row. -/
theorem songs_table_one_row_per_distinct_tuple (rs : List SongRecord) :
    (songs_table rs).Nodup ∧
    ∀ t : SongRow, t ∈ songs_table rs ↔ t ∈ rs.map songRowOf := by
  constructor
  · have h := (nodup_dedupeByAux (fun t : SongRow => t)
      (orderBySongId (rs.map songRowOf)) []).1
    have hmap : (dedupeByAux (fun t : SongRow => t) []
        (orderBySongId (rs.map songRowOf))).map (fun t => t) =
        dedupeByAux (fun t : SongRow => t) []
          (orderBySongId (rs.map songRowOf)) := List.map_id _
    rw [hmap] at h
    exact h
  · intro t
    unfold songs_table drop_duplicates dedupeBy
    rw [mem_dedupeByAux_id]
    simp [mem_orderBySongId]

theorem daysInYear_ge (y : Nat) : 365 ≤ daysInYear y := by
  unfold daysInYear
  split <;> omega

theorem yearAndDoyAux_doy_lt :
    ∀ (fuel y d : Nat), d < fuel →
      (yearAndDoyAux fuel y d).2 < daysInYear (yearAndDoyAux fuel y d).1 := by
  intro fuel
  induction fuel with
  | zero => intro y d h; omega
  | succ f ih =>
    intro y d h
    unfold yearAndDoyAux
    split
    · assumption
    · have hy := daysInYear_ge y
      exact ih (y + 1) (d - daysInYear y) (by omega)

theorem yearAndDoy_doy_lt (d : Nat) :
    (yearAndDoy d).2 < daysInYear (yearAndDoy d).1 :=
  yearAndDoyAux_doy_lt (d + 1) 1970 d (by omega)

theorem monthDayAux_bounds :
    ∀ (lens : List Nat) (m d : Nat), d < lens.sum → (∀ l ∈ lens, l ≤ 31) →
      m ≤ (monthDayAux lens m d).1 ∧
      (monthDayAux lens m d).1 < m + lens.length ∧
      1 ≤ (monthDayAux lens m d).2 ∧ (monthDayAux lens m d).2 ≤ 31 := by
  intro lens
  induction lens with
  | nil => intro m d h; simp at h
  | cons len rest ih =>
    intro m d h hle
    unfold monthDayAux
    split
    · have h31 : len ≤ 31 := hle len (List.mem_cons_self _ _)
      simp only [List.length_cons]
      omega
    · have hsum : d - len < rest.sum := by
        simp only [List.sum_cons] at h
        omega
      have := ih (m + 1) (d - len) hsum
        (fun l hl => hle l (List.mem_cons_of_mem _ hl))
      simp only [List.length_cons]
      omega

theorem monthLengths_sum (b : Bool) :
    (monthLengths b).sum = if b then 366 else 365 := by
  cases b <;> rfl

theorem monthLengths_le (b : Bool) : ∀ l ∈ monthLengths b, l ≤ 31 := by
  cases b <;> decide

theorem monthLengths_length (b : Bool) : (monthLengths b).length = 12 := by
  cases b <;> rfl

theorem monthAndDay_bounds (y doy : Nat) (h : doy < daysInYear y) :
    1 ≤ (monthAndDay y doy).1 ∧ (monthAndDay y doy).1 ≤ 12 ∧
    1 ≤ (monthAndDay y doy).2 ∧ (monthAndDay y doy).2 ≤ 31 := by
  have hsum : doy < (monthLengths (isLeap y)).sum := by
    rw [monthLengths_sum]
    unfold daysInYear at h
    exact h
  have hb := monthDayAux_bounds (monthLengths (isLeap y)) 1 doy hsum
    (monthLengths_le (isLeap y))
  rw [monthLengths_length] at hb
  unfold monthAndDay
  omega

theorem fromtimestampUTC_bounds (ts : Nat) :
    (fromtimestampUTC ts).hour ≤ 23 ∧
    1 ≤ (fromtimestampUTC ts).day ∧ (fromtimestampUTC ts).day ≤ 31 ∧
    1 ≤ (fromtimestampUTC ts).month ∧ (fromtimestampUTC ts).month ≤ 12 := by
  have hmd := monthAndDay_bounds (yearAndDoy (ts / 1000 / 86400)).1
    (yearAndDoy (ts / 1000 / 86400)).2 (yearAndDoy_doy_lt (ts / 1000 / 86400))
  unfold fromtimestampUTC
  simp only
  refine ⟨?_, hmd.2.2.1, hmd.2.2.2, hmd.1, hmd.2.1⟩
  omega

theorem weeksInYear_cases (y : Nat) :
    weeksInYear y = 52 ∨ weeksInYear y = 53 := by
  unfold weeksInYear
  split <;> simp

theorem weekofyear_bounds (ts : Nat) :
    1 ≤ weekofyear ts ∧ weekofyear ts ≤ 53 := by
  unfold weekofyear
  simp only
  split
  · rcases weeksInYear_cases ((yearAndDoy (ts / 1000 / 86400)).1 - 1) with h | h <;>
      rw [h] <;> omega
  · split
    · omega
    · rcases weeksInYear_cases (yearAndDoy (ts / 1000 / 86400)).1 with h | h <;>
        omega

/-- Claim C5 counterexample: under the UTC convention the derived datetime
of ts = 1541990258796 is 02:37:38, i.e. hour 2 and minute 37, so the
claim's stated 04:57:38 / hour = 4 is false (the minute value 37 also rules
out any whole-hour timezone convention yielding 04:57). -/
theorem timestamp_example_hour_is_two :
    (fromtimestampUTC 1541990258796).hour = 2 ∧
    (fromtimestampUTC 1541990258796).minute = 37 ∧
    ¬ ((fromtimestampUTC 1541990258796).hour = 4) := by
  refine ⟨rfl, rfl, ?_⟩
  decide

/-- Claim C5 (amended): the timestamp derivation is a pure function of ts
(embedded under the UTC convention); for ts = 1541990258796 it derives
start_time 2018-11-12 02:37:38.796 UTC — hour = 2, year = 2018,
month = 11 — and the seconds-string column is "1541990258". -/
theorem timestamp_example_utc :
    fromtimestampUTC 1541990258796 =
      ⟨2018, 11, 12, 2, 37, 38, 796⟩ ∧
    get_timestamp 1541990258796 = "1541990258" := by
  constructor
  · rfl
  · decide

/-- Claim C7: for every input sequence of log records, the time table has
at most one row per distinct start_time (the start_time column of the
output has no duplicates), and every row satisfies hour ≤ 23,
1 ≤ day ≤ 31, 1 ≤ month ≤ 12, 1 ≤ week ≤ 53. -/
theorem time_table_unique_and_bounded (logs : List LogRecord) :
    ((time_table logs).map TimeRow.start_time).Nodup ∧
    ∀ row ∈ time_table logs,
      row.hour ≤ 23 ∧ 1 ≤ row.day ∧ row.day ≤ 31 ∧
      1 ≤ row.month ∧ row.month ≤ 12 ∧ 1 ≤ row.week ∧ row.week ≤ 53 := by
  constructor
  · exact (nodup_dedupeByAux TimeRow.start_time
      ((addTimeCols (filterNextSong logs)).map timeRowOf) []).1
  · intro row hrow
    have hmem : row ∈ (addTimeCols (filterNextSong logs)).map timeRowOf :=
      mem_of_mem_dedupeByAux TimeRow.start_time _ _ _ hrow
    obtain ⟨ext, hext, rfl⟩ := List.mem_map.1 hmem
    obtain ⟨r, _, rfl⟩ := List.mem_map.1 hext
    have hb := fromtimestampUTC_bounds r.ts
    have hw := weekofyear_bounds r.ts
    unfold timeRowOf
    simp only
    exact ⟨hb.1, hb.2.1, hb.2.2.1, hb.2.2.2.1, hb.2.2.2.2, hw.1, hw.2⟩

/-- Claim C7 witness: the time-table row of the concrete NextSong record is
in the table built from that record, and it satisfies the bounds. -/
theorem time_table_unique_and_bounded_witness :
    (timeRowOf ⟨exNextSong, get_timestamp exNextSong.ts,
        fromtimestampUTC exNextSong.ts⟩ ∈ time_table [exNextSong]) ∧
    ((timeRowOf ⟨exNextSong, get_timestamp exNextSong.ts,
        fromtimestampUTC exNextSong.ts⟩).hour ≤ 23 ∧
     1 ≤ (timeRowOf ⟨exNextSong, get_timestamp exNextSong.ts,
        fromtimestampUTC exNextSong.ts⟩).day ∧
     (timeRowOf ⟨exNextSong, get_timestamp exNextSong.ts,
        fromtimestampUTC exNextSong.ts⟩).day ≤ 31 ∧
     1 ≤ (timeRowOf ⟨exNextSong, get_timestamp exNextSong.ts,
        fromtimestampUTC exNextSong.ts⟩).month ∧
     (timeRowOf ⟨exNextSong, get_timestamp exNextSong.ts,
        fromtimestampUTC exNextSong.ts⟩).month ≤ 12 ∧
     1 ≤ (timeRowOf ⟨exNextSong, get_timestamp exNextSong.ts,
        fromtimestampUTC exNextSong.ts⟩).week ∧
     (timeRowOf ⟨exNextSong, get_timestamp exNextSong.ts,
        fromtimestampUTC exNextSong.ts⟩).week ≤ 53) :=
  ⟨by decide,
   (time_table_unique_and_bounded [exNextSong]).2 _ (by decide)⟩

theorem filterNextSong_skips (l1 l2 : List LogRecord) (r : LogRecord)
    (h : r.page ≠ "NextSong") :
    filterNextSong (l1 ++ r :: l2) = filterNextSong (l1 ++ l2) := by
  have hb : (r.page == "NextSong") = false := by
    simpa using h
  unfold filterNextSong
  simp [List.filter_append, List.filter_cons, hb]

/-- Claim C4: a log record whose page is not "NextSong" contributes no row
to the users, time or songplays derivations — inserting such a record
anywhere in the input leaves all three outputs unchanged, since each
derivation operates on the page == "NextSong" filtered set. -/
theorem nonNextSong_contributes_nothing (l1 l2 : List LogRecord)
    (r : LogRecord) (h : r.page ≠ "NextSong") :
    users_projection (l1 ++ r :: l2) = users_projection (l1 ++ l2) ∧
    time_table (l1 ++ r :: l2) = time_table (l1 ++ l2) ∧
    ∀ songData : List SongRecord,
      songplays_stage (l1 ++ r :: l2) songData =
        songplays_stage (l1 ++ l2) songData := by
  have hf := filterNextSong_skips l1 l2 r h
  refine ⟨?_, ?_, ?_⟩
  · unfold users_projection
    rw [hf]
  · unfold time_table
    rw [hf]
  · intro songData
    unfold songplays_stage
    rw [hf]

/-- Claim C4 witness: instantiated at the concrete page = "Home" record
inserted before a concrete NextSong record. -/
theorem nonNextSong_contributes_nothing_witness :
    exHome.page ≠ "NextSong" ∧
    (users_projection ([] ++ exHome :: [exNextSong]) =
        users_projection ([] ++ [exNextSong]) ∧
     time_table ([] ++ exHome :: [exNextSong]) =
        time_table ([] ++ [exNextSong]) ∧
     ∀ songData : List SongRecord,
       songplays_stage ([] ++ exHome :: [exNextSong]) songData =
         songplays_stage ([] ++ [exNextSong]) songData) :=
  ⟨by decide,
   nonNextSong_contributes_nothing [] [exNextSong] exHome (by decide)⟩

theorem assignIds_snd_ge {α : Type} :
    ∀ (l : List α) (s : Nat) (p : α × Nat), p ∈ assignIds s l → s ≤ p.2 := by
  intro l
  induction l with
  | nil => intro s p h; simp [assignIds] at h
  | cons x xs ih =>
    intro s p h
    rcases List.mem_cons.1 h with rfl | h
    · exact le_refl s
    · exact Nat.le_of_succ_le (ih (s + 1) p h)

theorem assignIds_pairwise_lt {α : Type} :
    ∀ (l : List α) (s : Nat),
      ((assignIds s l).map Prod.snd).Pairwise (· < ·) := by
  intro l
  induction l with
  | nil => intro s; simp [assignIds]
  | cons x xs ih =>
    intro s
    simp only [assignIds, List.map_cons]
    refine List.Pairwise.cons ?_ (ih (s + 1))
    intro b hb
    obtain ⟨p, hp, rfl⟩ := List.mem_map.1 hb
    exact Nat.lt_of_succ_le (assignIds_snd_ge xs (s + 1) p hp)

/-- Claim C6: the songplay_id column assigned by the
`withColumn("songplay_id", monotonically_increasing_id())` stage is
strictly increasing along the scan order of the rows (hence a total order
consistent with input order) and its values are pairwise distinct. -/
theorem songplay_ids_increasing_and_distinct {α : Type} (rows : List α) :
    ((withSongplayId rows).map Prod.snd).Pairwise (· < ·) ∧
    ((withSongplayId rows).map Prod.snd).Nodup :=
  ⟨assignIds_pairwise_lt rows 0,
   (assignIds_pairwise_lt rows 0).imp Nat.ne_of_lt⟩

/-- Claim C1 (code evaluated at the failing configuration): the songplays
derivation never resolves song_id/artist_id by matching against the song
dimension — `song_df` is a path string, no join is performed, and the
select references `artist_id` (and `song_id`, `year`) directly on the log
dataframe, whose schema has no such column — so for every input the stage
fails with an analysis error on `artist_id` instead of recording null on a
dimension miss. -/
theorem songplays_stage_always_fails (logs : List LogRecord)
    (songData : List SongRecord) :
    songplays_stage logs songData =
      Except.error (PyError.analysisException "artist_id") := rfl

/-- Claim C3 (code evaluated): in the songplays select, the month output
column is computed from the derived `datetime` column, but the year output
column is a plain reference to a raw column named "year", which is not a
column of the (augmented) log dataframe — so year is not carried from the
derived timestamp; the reference cannot even be resolved. -/
theorem songplays_year_is_raw_reference :
    songplaysSelect.find? (fun p => p.1 == "year") =
      some ("year", SparkExpr.col "year") ∧
    songplaysSelect.find? (fun p => p.1 == "month") =
      some ("month", SparkExpr.monthOf "datetime") ∧
    df2Columns.contains "year" = false := by
  decide

/-- Claim C8: for every input, `process_song_data` fails with an
attribute-resolution error on `songs_table` (line 45 accesses the
nonexistent attribute `songs_table` on the songs dataframe), so it returns
no write — neither the songs table nor the artists table is persisted. -/
theorem process_song_data_attribute_error (songs : List SongRecord) :
    process_song_data songs =
      Except.error (PyError.attributeError "songs_table") := rfl

/-- Claim C9: for every input, `process_log_data` binds the users
projection to the name `artists_table` and then fails with a
name-resolution error on the unbound name `users_table` at the users
write, so it returns no write — no users, time or songplays table is
persisted. -/
theorem process_log_data_name_error (logs : List LogRecord)
    (songData : List SongRecord) :
    process_log_data logs songData =
      Except.error (PyError.nameError "users_table") := rfl

/-- Claim C10: the songplays derivation does not depend on the song
dataset — with identical log records and arbitrarily different song-data
contents, the result is identical, because the song-data path is assigned
as a string and the song data is never read or joined. -/
theorem songplays_independent_of_song_data (logs : List LogRecord)
    (s1 s2 : List SongRecord) :
    songplays_stage logs s1 = songplays_stage logs s2 := rfl

end ETL
